import Mathlib

/-!
Verification of the MPU gyro/accel driver core `src/main/drivers/accgyro_mpu.c`
(betaflight).  The C file is shallowly embedded: the bus read primitive is an
oracle returning an acknowledgement flag together with the buffer contents it
leaves behind, function pointers are modelled by a symbolic enumeration, and
each C function becomes a pure state transformer on the device record.
-/

namespace AccgyroMpu

/-- Model of a register burst-read primitive `readFn(reg, length, buffer) -> ack`:
given the register address and the length, it yields the acknowledgement flag and
the bytes left in the caller's buffer (also when the transfer was not
acknowledged, since the C buffer then simply holds whatever the primitive wrote,
if anything). -/
def ReadFn : Type := Nat → Nat → Bool × List Nat

/-- C buffers hold `uint8_t`; reading entry `i` of a buffer yields a byte.
Entries beyond the list model uninitialised stack memory, pinned to 0 here. -/
def byteAt (l : List Nat) (i : Nat) : Nat := l.getD i 0 % 256

/-- WHO_AM_I register contents for MPU6500 (`MPU6500_WHO_AM_I_CONST`, 0x70). -/
def MPU6500_WHO_AM_I_CONST : Nat := 0x70

/-- WHO_AM_I register contents for MPU3050/6050 (`MPUx0x0_WHO_AM_I_CONST`, 0x68). -/
def MPUx0x0_WHO_AM_I_CONST : Nat := 0x68

/-- Mask applied to identity bytes (`MPU_INQUIRY_MASK`, 0x7E). -/
def MPU_INQUIRY_MASK : Nat := 0x7E

/-- Modelled from the spec: primary-transport identity (WHO_AM_I) register
address; the register map header is not under src/. -/
def MPU_RA_WHO_AM_I : Nat := 0x75

/-- Modelled from the spec: legacy identity register address probed to detect
the 3-axis-only family; header not under src/. -/
def MPU_RA_WHO_AM_I_LEGACY : Nat := 0x00

/-- Modelled from the spec: start register of the 6-byte revision burst
(accel X offset high); header not under src/. -/
def MPU_RA_XA_OFFS_H : Nat := 0x06

/-- Modelled from the spec: product-identifier register address used by the
revision fallback; header not under src/. -/
def MPU_RA_PRODUCT_ID : Nat := 0x0C

/-- Modelled from the spec: standard gyroscope X-axis-high burst register;
header not under src/. -/
def MPU_RA_GYRO_XOUT_H : Nat := 0x43

/-- Modelled from the spec: fixed accelerometer X-axis-high burst register;
header not under src/. -/
def MPU_RA_ACCEL_XOUT_H : Nat := 0x3B

/-- Modelled from the spec: gyroscope burst register of the legacy 3-axis
family (MPU3050); header not under src/. -/
def MPU3050_GYRO_OUT : Nat := 0x1D

/-- Resolution class `MPU_HALF_RESOLUTION` (value 0 in the header enum). -/
def MPU_HALF_RESOLUTION : Nat := 0

/-- Resolution class `MPU_FULL_RESOLUTION` (value 1 in the header enum). -/
def MPU_FULL_RESOLUTION : Nat := 1

/-- Symbolic function pointers installable in the dispatch table
(`mpuConfiguration`): the null pointer of a zeroed structure, the I2C
primary-transport primitives, or a chip-specific SPI driver's primitives. -/
inductive FnPtr where
  | null
  | i2cPrimary
  | spiMpu6000
  | spiMpu6500
  | spiMpu9250
  | spiIcm20689
deriving DecidableEq, Repr

/-- Detected sensor variant (`mpuSensor_e`); `MPU_NONE` is the undetected
sentinel of a zeroed detection result. -/
inductive MpuSensor where
  | MPU_NONE
  | MPU_3050
  | MPU_60x0
  | MPU_60x0_SPI
  | MPU_65xx_I2C
  | MPU_65xx_SPI
  | MPU_9250_SPI
  | ICM_20689_SPI
deriving DecidableEq, Repr

/-- A raw 3-axis sample, three signed 16-bit values. -/
structure Axes3 where
  x : Int
  y : Int
  z : Int
deriving DecidableEq, Repr

/-- The gyro device record (`gyroDev_t`), restricted to the fields this file
touches: the detection result (sensor variant and resolution class), the
dispatch table (`mpuConfiguration`: function pointers and the gyro burst
register address), the data-ready latch bit, whether a client update callback
is installed (`gyro->update != NULL`), and the raw gyro sample buffer. -/
structure GyroDev where
  sensor : MpuSensor
  resolution : Nat
  readFn : FnPtr
  writeFn : FnPtr
  slowreadFn : FnPtr
  verifywriteFn : FnPtr
  resetFn : FnPtr
  gyroReadXRegister : Nat
  dataReady : Bool
  updateInstalled : Bool
  gyroADCRaw : Axes3
deriving DecidableEq, Repr

/-- The accel device record (`accDev_t`), restricted to its raw sample buffer;
its dispatch-table read pointer is passed explicitly to `mpuAccRead`. -/
structure AccDev where
  ADCRaw : Axes3
deriving DecidableEq, Repr

/-- Which secondary-transport (SPI) variant probes claim the device.  Each
field is the result of the corresponding external `...SpiDetect()` probe.
The `ICM20608` branch of the C file references stale globals and is not part
of any compiling configuration, so it is not modelled. -/
structure SpiProbes where
  mpu6000 : Bool
  mpu6500 : Bool
  mpu9250 : Bool
  icm20689 : Bool
deriving DecidableEq, Repr

/-- Outcome of `mpu6050FindRevision`: either the resolution class stored into
`gyro->mpuDetectionResult.resolution`, or the fatal
`failureMode(FAILURE_ACC_INCOMPATIBLE)` escalation (which does not return). -/
inductive RevOutcome where
  | ok (resolution : Nat)
  | fatal
deriving DecidableEq, Repr

/-- Result of a `mpuDetect` run: the final device state, whether the fatal
escalation fired, and how many times revision classification was invoked. -/
structure DetectResult where
  gyro : GyroDev
  fatal : Bool
  revisionCalls : Nat
deriving DecidableEq, Repr

/-- `mpu6050FindRevision` (accgyro_mpu.c, lines 65-102).  The C routine stores
the acknowledgement of both reads into a variable that is explicitly `UNUSED`;
classification looks only at the buffer contents.  At its call site the
dispatch-table read pointer is the function passed here. -/
def mpu6050FindRevision (readFn : ReadFn) : RevOutcome :=
  let readBuffer := (readFn MPU_RA_XA_OFFS_H 6).2
  let revision := ((byteAt readBuffer 5 &&& 0x01) <<< 2) |||
                  ((byteAt readBuffer 3 &&& 0x01) <<< 1) |||
                  (byteAt readBuffer 1 &&& 0x01)
  if revision ≠ 0 then
    if revision = 1 then
      RevOutcome.ok MPU_HALF_RESOLUTION
    else if revision = 2 then
      RevOutcome.ok MPU_FULL_RESOLUTION
    else if revision = 3 ∨ revision = 7 then
      RevOutcome.ok MPU_FULL_RESOLUTION
    else
      RevOutcome.fatal
  else
    let productId := byteAt (readFn MPU_RA_PRODUCT_ID 1).2 0
    let revision2 := productId &&& 0x0F
    if revision2 = 0 then
      RevOutcome.fatal
    else if revision2 = 4 then
      RevOutcome.ok MPU_HALF_RESOLUTION
    else
      RevOutcome.ok MPU_FULL_RESOLUTION

/-- `detectSPISensorsAndUpdateDetectionResult` (lines 225-283), with every
supported SPI variant compiled in: probes are tried in the fixed source order
and the first claimant installs its dispatch table. -/
def detectSPISensorsAndUpdateDetectionResult (spi : SpiProbes) (gyro : GyroDev) :
    Bool × GyroDev :=
  if spi.mpu6000 then
    (true, {gyro with sensor := MpuSensor.MPU_60x0_SPI,
                      gyroReadXRegister := MPU_RA_GYRO_XOUT_H,
                      readFn := FnPtr.spiMpu6000, writeFn := FnPtr.spiMpu6000})
  else if spi.mpu6500 then
    (true, {gyro with sensor := MpuSensor.MPU_65xx_SPI,
                      gyroReadXRegister := MPU_RA_GYRO_XOUT_H,
                      readFn := FnPtr.spiMpu6500, writeFn := FnPtr.spiMpu6500})
  else if spi.mpu9250 then
    (true, {gyro with sensor := MpuSensor.MPU_9250_SPI,
                      gyroReadXRegister := MPU_RA_GYRO_XOUT_H,
                      readFn := FnPtr.spiMpu9250, slowreadFn := FnPtr.spiMpu9250,
                      verifywriteFn := FnPtr.spiMpu9250,
                      writeFn := FnPtr.spiMpu9250, resetFn := FnPtr.spiMpu9250})
  else if spi.icm20689 then
    (true, {gyro with sensor := MpuSensor.ICM_20689_SPI,
                      gyroReadXRegister := MPU_RA_GYRO_XOUT_H,
                      readFn := FnPtr.spiIcm20689, writeFn := FnPtr.spiIcm20689})
  else
    (false, gyro)

/-- `mpuDetect` (lines 285-329), for a build with the I2C and SPI transports
enabled.  `i2c` is the denotation of `mpuReadRegisterI2C` (which forwards to
the bus primitive at the fixed device address); the initial `delay(35)` is
pure timing and is not modelled.  After the primary-transport probe
acknowledges, the I2C read pointer is installed, so the later revision
classification runs against `i2c` itself. -/
def mpuDetect (i2c : ReadFn) (spi : SpiProbes) (gyro : GyroDev) : DetectResult :=
  let who := i2c MPU_RA_WHO_AM_I 1
  let sig := byteAt who.2 0
  if who.1 = true then
    let g1 := {gyro with readFn := FnPtr.i2cPrimary, writeFn := FnPtr.i2cPrimary,
                         gyroReadXRegister := MPU_RA_GYRO_XOUT_H}
    let inq := i2c MPU_RA_WHO_AM_I_LEGACY 1
    let inquiryResult := byteAt inq.2 0 &&& MPU_INQUIRY_MASK
    if inq.1 = true ∧ inquiryResult = MPUx0x0_WHO_AM_I_CONST then
      ⟨{g1 with sensor := MpuSensor.MPU_3050,
                gyroReadXRegister := MPU3050_GYRO_OUT}, false, 0⟩
    else
      let sigMasked := sig &&& MPU_INQUIRY_MASK
      if sigMasked = MPUx0x0_WHO_AM_I_CONST then
        match mpu6050FindRevision i2c with
        | RevOutcome.ok r =>
          ⟨{g1 with sensor := MpuSensor.MPU_60x0, resolution := r}, false, 1⟩
        | RevOutcome.fatal =>
          ⟨{g1 with sensor := MpuSensor.MPU_60x0}, true, 1⟩
      else if sigMasked = MPU6500_WHO_AM_I_CONST then
        ⟨{g1 with sensor := MpuSensor.MPU_65xx_I2C}, false, 0⟩
      else
        ⟨g1, false, 0⟩
  else
    ⟨(detectSPISensorsAndUpdateDetectionResult spi gyro).2, false, 0⟩

/-- `mpuIntExtiHandler` (lines 108-125): sets the data-ready latch and, if a
client update callback is installed, invokes it.  The returned flag records
whether the callback was invoked; the callback itself is an external
collaborator and its effects are outside this layer. -/
def mpuIntExtiHandler (gyro : GyroDev) : GyroDev × Bool :=
  ({gyro with dataReady := true}, gyro.updateInstalled)

/-- `mpuCheckDataReady` (lines 212-222): drains the data-ready latch. -/
def mpuCheckDataReady (gyro : GyroDev) : Bool × GyroDev :=
  if gyro.dataReady then
    (true, {gyro with dataReady := false})
  else
    (false, gyro)

/-- Results of `n` consecutive `mpuCheckDataReady` polls from a given state. -/
def consumeRun : Nat → GyroDev → List Bool
  | 0, _ => []
  | n + 1, gyro =>
    let r := mpuCheckDataReady gyro
    r.1 :: consumeRun n r.2

/-- The C cast `(int16_t)((hi << 8) | lo)` applied to two `uint8_t` operands:
two's-complement reinterpretation of the 16-bit value. -/
def int16FromBytes (hi lo : Nat) : Int :=
  let v := (hi <<< 8) ||| lo
  if v < 0x8000 then (v : Int) else (v : Int) - 0x10000

/-- `mpuGyroRead` (lines 196-210): 6-byte burst at the dispatch table's gyro
register; on ack, decode X, Y, Z and return true, else return false leaving
the sample buffer untouched. -/
def mpuGyroRead (readFn : ReadFn) (gyro : GyroDev) : Bool × GyroDev :=
  let r := readFn gyro.gyroReadXRegister 6
  if r.1 = false then
    (false, gyro)
  else
    (true, {gyro with gyroADCRaw :=
      { x := int16FromBytes (byteAt r.2 0) (byteAt r.2 1)
        y := int16FromBytes (byteAt r.2 2) (byteAt r.2 3)
        z := int16FromBytes (byteAt r.2 4) (byteAt r.2 5) }})

/-- `mpuAccRead` (lines 173-187): 6-byte burst at the fixed accelerometer
register, same decode and failure contract as `mpuGyroRead`. -/
def mpuAccRead (readFn : ReadFn) (acc : AccDev) : Bool × AccDev :=
  let r := readFn MPU_RA_ACCEL_XOUT_H 6
  if r.1 = false then
    (false, acc)
  else
    (true, {acc with ADCRaw :=
      { x := int16FromBytes (byteAt r.2 0) (byteAt r.2 1)
        y := int16FromBytes (byteAt r.2 2) (byteAt r.2 3)
        z := int16FromBytes (byteAt r.2 4) (byteAt r.2 5) }})

/-- Spec-side revision code of a 6-byte burst: bit2 from the low bit of the
byte at offset 5, bit1 from offset 3, bit0 from offset 1 (spec section 4.2). -/
def specRevisionCode (buf : List Nat) : Nat :=
  4 * (byteAt buf 5 % 2) + 2 * (byteAt buf 3 % 2) + byteAt buf 1 % 2

/-- Spec-side classification map (spec section 4.2): code 1 gives Half, codes
2, 3, 7 give Full, any other nonzero code is fatal; code 0 falls back to the
product-identifier low nibble: 0 fatal, 4 Half, any other nonzero nibble Full. -/
def revisionSpecMap (code nibble : Nat) : RevOutcome :=
  if code ≠ 0 then
    if code = 1 then
      RevOutcome.ok MPU_HALF_RESOLUTION
    else if code = 2 ∨ code = 3 ∨ code = 7 then
      RevOutcome.ok MPU_FULL_RESOLUTION
    else
      RevOutcome.fatal
  else
    if nibble = 0 then
      RevOutcome.fatal
    else if nibble = 4 then
      RevOutcome.ok MPU_HALF_RESOLUTION
    else
      RevOutcome.ok MPU_FULL_RESOLUTION

/-- Spec-side decode of a signed 16-bit big-endian value from two bytes. -/
def specBE16 (hi lo : Nat) : Int :=
  let v := (hi % 256) * 256 + lo % 256
  if v < 32768 then (v : Int) else (v : Int) - 65536

/-- A zeroed gyro device, as left by the C runtime's zero-initialised statics:
the undetected sentinel state before any probe has run. -/
def gyroDevZero : GyroDev :=
  { sensor := MpuSensor.MPU_NONE, resolution := 0, readFn := FnPtr.null,
    writeFn := FnPtr.null, slowreadFn := FnPtr.null, verifywriteFn := FnPtr.null,
    resetFn := FnPtr.null, gyroReadXRegister := 0, dataReady := false,
    updateInstalled := false, gyroADCRaw := ⟨0, 0, 0⟩ }

/-- A zeroed accel device. -/
def accDevZero : AccDev := { ADCRaw := ⟨0, 0, 0⟩ }

/-! Helper lemmas. -/

lemma and15_eq_mod (n : Nat) : n &&& 0x0F = n % 16 := by
  simpa using Nat.and_pow_two_sub_one_eq_mod n 4

lemma revBits_eq (x y z : Nat) :
    ((x &&& 0x01) <<< 2) ||| ((y &&& 0x01) <<< 1) ||| (z &&& 0x01)
      = 4 * (x % 2) + 2 * (y % 2) + z % 2 := by
  rw [Nat.and_one_is_mod, Nat.and_one_is_mod, Nat.and_one_is_mod]
  rcases Nat.mod_two_eq_zero_or_one x with hx | hx <;>
    rcases Nat.mod_two_eq_zero_or_one y with hy | hy <;>
      rcases Nat.mod_two_eq_zero_or_one z with hz | hz <;>
        rw [hx, hy, hz] <;> decide

/-- Core refinement: the C revision classifier equals the spec-side map applied
to the spec-side revision code and the product-identifier low nibble. -/
lemma mpu6050FindRevision_eq_specMap (readFn : ReadFn) :
    mpu6050FindRevision readFn
      = revisionSpecMap (specRevisionCode (readFn MPU_RA_XA_OFFS_H 6).2)
          (byteAt (readFn MPU_RA_PRODUCT_ID 1).2 0 % 16) := by
  rcases Nat.mod_two_eq_zero_or_one (byteAt (readFn MPU_RA_XA_OFFS_H 6).2 5) with h5 | h5 <;>
    rcases Nat.mod_two_eq_zero_or_one (byteAt (readFn MPU_RA_XA_OFFS_H 6).2 3) with h3 | h3 <;>
      rcases Nat.mod_two_eq_zero_or_one (byteAt (readFn MPU_RA_XA_OFFS_H 6).2 1) with h1 | h1 <;>
        simp [mpu6050FindRevision, revisionSpecMap, specRevisionCode,
          revBits_eq, and15_eq_mod, h5, h3, h1]

lemma count_true_replicate_false (m : Nat) :
    List.count true (List.replicate m false) = 0 := by
  induction m with
  | zero => rfl
  | succ m ih => simp [List.replicate_succ, List.count_cons, ih]

lemma consumeRun_of_not_ready (n : Nat) (g : GyroDev) (h : g.dataReady = false) :
    consumeRun n g = List.replicate n false := by
  induction n generalizing g with
  | zero => rfl
  | succ n ih =>
    have hc : mpuCheckDataReady g = (false, g) := by
      simp [mpuCheckDataReady, h]
    simp [consumeRun, hc, ih g h, List.replicate_succ]

lemma consumeRun_of_ready (n : Nat) (g : GyroDev) (h : g.dataReady = true) :
    consumeRun (n + 1) g = true :: List.replicate n false := by
  have hc : mpuCheckDataReady g = (true, {g with dataReady := false}) := by
    simp [mpuCheckDataReady, h]
  have hrest := consumeRun_of_not_ready n {g with dataReady := false} rfl
  simp [consumeRun, hc, hrest]

lemma shiftLeft8_lor_eq_add (a b : Nat) (hb : b < 256) :
    (a <<< 8) ||| b = a * 256 + b := by
  apply Nat.eq_of_testBit_eq
  intro i
  have hb' : b < 2 ^ 8 := hb
  have h256 : a * 256 + b = 2 ^ 8 * a + b := by ring
  rw [Nat.testBit_lor, Nat.testBit_shiftLeft, h256,
    Nat.testBit_mul_pow_two_add a hb' i]
  by_cases hi : 8 ≤ i
  · have hbf : b.testBit i = false :=
      Nat.testBit_lt_two_pow
        (lt_of_lt_of_le hb' (Nat.pow_le_pow_right (by norm_num) hi))
    simp [hi, Nat.not_lt.mpr hi, hbf]
  · simp [hi, Nat.lt_of_not_le hi]

lemma int16FromBytes_eq_specBE16 (hi lo : Nat) :
    int16FromBytes (hi % 256) (lo % 256) = specBE16 hi lo := by
  simp only [int16FromBytes, specBE16]
  rw [shiftLeft8_lor_eq_add (hi % 256) (lo % 256) (Nat.mod_lt _ (by norm_num))]

/-! Concrete inputs used by the witness theorems. -/

/-- A bus whose revision burst has code 2 (low bit of byte 3 set) and whose
product identifier is 0x05, with every transfer acknowledged. -/
def revBusAcked : ReadFn := fun reg _len =>
  if reg = MPU_RA_XA_OFFS_H then (true, [0, 0, 0, 1, 0, 0])
  else if reg = MPU_RA_PRODUCT_ID then (true, [0x05])
  else (true, [])

/-- Same buffer contents as `revBusAcked`, with no transfer acknowledged. -/
def revBusUnacked : ReadFn := fun reg _len =>
  if reg = MPU_RA_XA_OFFS_H then (false, [0, 0, 0, 1, 0, 0])
  else if reg = MPU_RA_PRODUCT_ID then (false, [0x05])
  else (false, [])

/-- A bus that never acknowledges and leaves junk in the buffer. -/
def busNoAck : ReadFn := fun _reg _len => (false, [9, 9, 9, 9, 9, 9])

/-- A bus that acknowledges every burst with a fixed 6-byte sample. -/
def busAcked : ReadFn := fun _reg _len => (true, [1, 2, 3, 4, 0xFF, 0xFE])

/-! Claim theorems. -/

/-- C1: for every 6-byte revision burst, `mpu6050FindRevision` computes the
3-bit code (bit2 from the low bit of byte 5, bit1 from byte 3, bit0 from
byte 1) and maps it exactly as specified: code 1 gives Half resolution;
codes 2, 3, 7 give Full; any other nonzero code escalates the fatal
unsupported-hardware failure; code 0 falls back to the product identifier's
low nibble, with nibble 0 fatal, nibble 4 Half, any other nonzero Full. -/
theorem classifyRevision_correct (readFn : ReadFn) :
    mpu6050FindRevision readFn
      = revisionSpecMap (specRevisionCode (readFn MPU_RA_XA_OFFS_H 6).2)
          (byteAt (readFn MPU_RA_PRODUCT_ID 1).2 0 % 16) :=
  mpu6050FindRevision_eq_specMap readFn

/-- C9: revision classification ignores the acknowledgement result of both
reads: any two buses that leave the same buffer contents, whatever their ack
flags, classify identically, and the outcome carries no ack channel at all. -/
theorem classifyRevision_ignores_ack (f1 f2 : ReadFn)
    (hburst : (f1 MPU_RA_XA_OFFS_H 6).2 = (f2 MPU_RA_XA_OFFS_H 6).2)
    (hpid : (f1 MPU_RA_PRODUCT_ID 1).2 = (f2 MPU_RA_PRODUCT_ID 1).2) :
    mpu6050FindRevision f1 = mpu6050FindRevision f2 := by
  simp only [mpu6050FindRevision, hburst, hpid]

/-- Witness for C9 at a concrete pair of buses differing only in acks. -/
theorem classifyRevision_ignores_ack_witness :
    (revBusAcked MPU_RA_XA_OFFS_H 6).2 = (revBusUnacked MPU_RA_XA_OFFS_H 6).2 ∧
    (revBusAcked MPU_RA_PRODUCT_ID 1).2 = (revBusUnacked MPU_RA_PRODUCT_ID 1).2 ∧
    mpu6050FindRevision revBusAcked = mpu6050FindRevision revBusUnacked :=
  ⟨by decide, by decide,
    classifyRevision_ignores_ack revBusAcked revBusUnacked (by decide) (by decide)⟩

/-- C5: the data-ready latch is drained exactly once per interrupt edge:
after an edge, the first poll returns true and resets the latch, a run of n
polls returns true exactly once, and with the latch never set every poll in
a run returns false. -/
theorem dataReady_consumed_exactly_once (g : GyroDev) (n : Nat) (hn : 1 ≤ n) :
    (mpuCheckDataReady (mpuIntExtiHandler g).1).1 = true ∧
    ((mpuCheckDataReady (mpuIntExtiHandler g).1).2).dataReady = false ∧
    List.count true (consumeRun n (mpuIntExtiHandler g).1) = 1 ∧
    (g.dataReady = false → List.count true (consumeRun n g) = 0) := by
  obtain ⟨m, rfl⟩ : ∃ m, n = m + 1 := ⟨n - 1, by omega⟩
  refine ⟨by simp [mpuIntExtiHandler, mpuCheckDataReady],
    by simp [mpuIntExtiHandler, mpuCheckDataReady], ?_, ?_⟩
  · rw [consumeRun_of_ready m _ (by simp [mpuIntExtiHandler])]
    simp [List.count_cons, count_true_replicate_false]
  · intro h
    rw [consumeRun_of_not_ready (m + 1) g h]
    exact count_true_replicate_false (m + 1)

/-- Witness for C5: a zeroed device polled twice after a single edge. -/
theorem dataReady_consumed_exactly_once_witness :
    1 ≤ 2 ∧
    ((mpuCheckDataReady (mpuIntExtiHandler gyroDevZero).1).1 = true ∧
     ((mpuCheckDataReady (mpuIntExtiHandler gyroDevZero).1).2).dataReady = false ∧
     List.count true (consumeRun 2 (mpuIntExtiHandler gyroDevZero).1) = 1 ∧
     (gyroDevZero.dataReady = false →
       List.count true (consumeRun 2 gyroDevZero) = 0)) :=
  ⟨by decide, dataReady_consumed_exactly_once gyroDevZero 2 (by decide)⟩

/-- C8: the interrupt handler writes only the data-ready latch bit: it sets
the latch, reports the callback as invoked exactly when one is installed, and
every other device field (detection result, dispatch table, burst register,
sample buffer) is unchanged. -/
theorem interruptHandler_frame (g : GyroDev) :
    (mpuIntExtiHandler g).1.dataReady = true ∧
    (mpuIntExtiHandler g).2 = g.updateInstalled ∧
    (mpuIntExtiHandler g).1.sensor = g.sensor ∧
    (mpuIntExtiHandler g).1.resolution = g.resolution ∧
    (mpuIntExtiHandler g).1.readFn = g.readFn ∧
    (mpuIntExtiHandler g).1.writeFn = g.writeFn ∧
    (mpuIntExtiHandler g).1.slowreadFn = g.slowreadFn ∧
    (mpuIntExtiHandler g).1.verifywriteFn = g.verifywriteFn ∧
    (mpuIntExtiHandler g).1.resetFn = g.resetFn ∧
    (mpuIntExtiHandler g).1.gyroReadXRegister = g.gyroReadXRegister ∧
    (mpuIntExtiHandler g).1.updateInstalled = g.updateInstalled ∧
    (mpuIntExtiHandler g).1.gyroADCRaw = g.gyroADCRaw :=
  ⟨rfl, rfl, rfl, rfl, rfl, rfl, rfl, rfl, rfl, rfl, rfl, rfl⟩

/-- C6: an unacknowledged burst read makes `mpuGyroRead` and `mpuAccRead`
return false and leave the whole device record, in particular the previously
stored raw sample buffer, unchanged. -/
theorem failedBurstRead_preserves_samples (readFn : ReadFn) (g : GyroDev) (a : AccDev)
    (hg : (readFn g.gyroReadXRegister 6).1 = false)
    (ha : (readFn MPU_RA_ACCEL_XOUT_H 6).1 = false) :
    mpuGyroRead readFn g = (false, g) ∧ mpuAccRead readFn a = (false, a) := by
  constructor
  · simp [mpuGyroRead, hg]
  · simp [mpuAccRead, ha]

/-- Witness for C6 at a never-acknowledging bus and devices with stored samples. -/
theorem failedBurstRead_preserves_samples_witness :
    (busNoAck gyroDevZero.gyroReadXRegister 6).1 = false ∧
    (busNoAck MPU_RA_ACCEL_XOUT_H 6).1 = false ∧
    (mpuGyroRead busNoAck gyroDevZero = (false, gyroDevZero) ∧
     mpuAccRead busNoAck accDevZero = (false, accDevZero)) :=
  ⟨by decide, by decide,
    failedBurstRead_preserves_samples busNoAck gyroDevZero accDevZero
      (by decide) (by decide)⟩

/-- C7: an acknowledged burst read starts at the dispatch table's gyro
register (fixed accelerometer register for accel), decodes the six bytes as
three signed 16-bit big-endian values in X, Y, Z order, stores them, and
returns true. -/
theorem ackedBurstRead_decodes_bigEndian (readFn : ReadFn) (g : GyroDev) (a : AccDev)
    (hg : (readFn g.gyroReadXRegister 6).1 = true)
    (ha : (readFn MPU_RA_ACCEL_XOUT_H 6).1 = true) :
    mpuGyroRead readFn g =
      (true, {g with gyroADCRaw :=
        { x := specBE16 ((readFn g.gyroReadXRegister 6).2.getD 0 0)
                 ((readFn g.gyroReadXRegister 6).2.getD 1 0)
          y := specBE16 ((readFn g.gyroReadXRegister 6).2.getD 2 0)
                 ((readFn g.gyroReadXRegister 6).2.getD 3 0)
          z := specBE16 ((readFn g.gyroReadXRegister 6).2.getD 4 0)
                 ((readFn g.gyroReadXRegister 6).2.getD 5 0) }}) ∧
    mpuAccRead readFn a =
      (true, {a with ADCRaw :=
        { x := specBE16 ((readFn MPU_RA_ACCEL_XOUT_H 6).2.getD 0 0)
                 ((readFn MPU_RA_ACCEL_XOUT_H 6).2.getD 1 0)
          y := specBE16 ((readFn MPU_RA_ACCEL_XOUT_H 6).2.getD 2 0)
                 ((readFn MPU_RA_ACCEL_XOUT_H 6).2.getD 3 0)
          z := specBE16 ((readFn MPU_RA_ACCEL_XOUT_H 6).2.getD 4 0)
                 ((readFn MPU_RA_ACCEL_XOUT_H 6).2.getD 5 0) }}) := by
  constructor
  · simp [mpuGyroRead, hg, byteAt, int16FromBytes_eq_specBE16]
  · simp [mpuAccRead, ha, byteAt, int16FromBytes_eq_specBE16]

/-- C2: when the primary transport acknowledges the identity probe, the
legacy-register probe does not classify the device as legacy, and the masked
identity byte equals the six-axis constant, `mpuDetect` sets the six-axis
primary-transport variant, invokes revision classification exactly once, and
leaves the gyro burst register at the standard X-axis-high register; a
revision burst with code 2 then yields Full resolution without a fatal. -/
theorem detect_sixAxis_classifies (i2c : ReadFn) (spi : SpiProbes) (g : GyroDev)
    (hack : (i2c MPU_RA_WHO_AM_I 1).1 = true)
    (hleg : ¬((i2c MPU_RA_WHO_AM_I_LEGACY 1).1 = true ∧
        byteAt (i2c MPU_RA_WHO_AM_I_LEGACY 1).2 0 &&& MPU_INQUIRY_MASK
          = MPUx0x0_WHO_AM_I_CONST))
    (hsig : byteAt (i2c MPU_RA_WHO_AM_I 1).2 0 &&& MPU_INQUIRY_MASK
        = MPUx0x0_WHO_AM_I_CONST) :
    (mpuDetect i2c spi g).gyro.sensor = MpuSensor.MPU_60x0 ∧
    (mpuDetect i2c spi g).revisionCalls = 1 ∧
    (mpuDetect i2c spi g).gyro.gyroReadXRegister = MPU_RA_GYRO_XOUT_H ∧
    (specRevisionCode (i2c MPU_RA_XA_OFFS_H 6).2 = 2 →
      (mpuDetect i2c spi g).fatal = false ∧
      (mpuDetect i2c spi g).gyro.resolution = MPU_FULL_RESOLUTION) := by
  rcases hR : mpu6050FindRevision i2c with r | _
  · refine ⟨?_, ?_, ?_, ?_⟩
    · simp [mpuDetect, hack, hleg, hsig, hR]
    · simp [mpuDetect, hack, hleg, hsig, hR]
    · simp [mpuDetect, hack, hleg, hsig, hR]
    · intro hcode
      have hmap := mpu6050FindRevision_eq_specMap i2c
      rw [hR, hcode] at hmap
      have hfull : revisionSpecMap 2 (byteAt (i2c MPU_RA_PRODUCT_ID 1).2 0 % 16)
          = RevOutcome.ok MPU_FULL_RESOLUTION := rfl
      rw [hfull] at hmap
      cases hmap
      constructor
      · simp [mpuDetect, hack, hleg, hsig, hR]
      · simp [mpuDetect, hack, hleg, hsig, hR]
  · refine ⟨?_, ?_, ?_, ?_⟩
    · simp [mpuDetect, hack, hleg, hsig, hR]
    · simp [mpuDetect, hack, hleg, hsig, hR]
    · simp [mpuDetect, hack, hleg, hsig, hR]
    · intro hcode
      have hmap := mpu6050FindRevision_eq_specMap i2c
      rw [hR, hcode] at hmap
      have hfull : revisionSpecMap 2 (byteAt (i2c MPU_RA_PRODUCT_ID 1).2 0 % 16)
          = RevOutcome.ok MPU_FULL_RESOLUTION := rfl
      rw [hfull] at hmap
      cases hmap

/-- A bus simulating an I2C MPU6050: identity byte 0x68, legacy probe not
acknowledged, revision burst with code 2, product id 0x05. -/
def bus6050 : ReadFn := fun reg _len =>
  if reg = MPU_RA_WHO_AM_I then (true, [0x68])
  else if reg = MPU_RA_WHO_AM_I_LEGACY then (false, [0])
  else if reg = MPU_RA_XA_OFFS_H then (true, [0, 0, 0, 1, 0, 0])
  else if reg = MPU_RA_PRODUCT_ID then (true, [0x05])
  else (false, [])

/-- Witness for C2: end-to-end detection of a simulated MPU6050 with a
code-2 revision burst. -/
theorem detect_sixAxis_classifies_witness :
    (bus6050 MPU_RA_WHO_AM_I 1).1 = true ∧
    ¬((bus6050 MPU_RA_WHO_AM_I_LEGACY 1).1 = true ∧
        byteAt (bus6050 MPU_RA_WHO_AM_I_LEGACY 1).2 0 &&& MPU_INQUIRY_MASK
          = MPUx0x0_WHO_AM_I_CONST) ∧
    byteAt (bus6050 MPU_RA_WHO_AM_I 1).2 0 &&& MPU_INQUIRY_MASK
      = MPUx0x0_WHO_AM_I_CONST ∧
    ((mpuDetect bus6050 ⟨false, false, false, false⟩ gyroDevZero).gyro.sensor
        = MpuSensor.MPU_60x0 ∧
     (mpuDetect bus6050 ⟨false, false, false, false⟩ gyroDevZero).revisionCalls = 1 ∧
     (mpuDetect bus6050 ⟨false, false, false, false⟩ gyroDevZero).gyro.gyroReadXRegister
        = MPU_RA_GYRO_XOUT_H ∧
     (specRevisionCode (bus6050 MPU_RA_XA_OFFS_H 6).2 = 2 →
       (mpuDetect bus6050 ⟨false, false, false, false⟩ gyroDevZero).fatal = false ∧
       (mpuDetect bus6050 ⟨false, false, false, false⟩ gyroDevZero).gyro.resolution
          = MPU_FULL_RESOLUTION)) :=
  ⟨by decide, by decide, by decide,
    detect_sixAxis_classifies bus6050 ⟨false, false, false, false⟩ gyroDevZero
      (by decide) (by decide) (by decide)⟩

/-- C3: when the legacy identity register read is acknowledged and its masked
value matches the legacy pattern, `mpuDetect` classifies the device as the
legacy 3-axis family, overrides the gyro burst register to the legacy
register (distinct from the standard one), and terminates without invoking
revision classification; the decision keys on the legacy-register probe, not
on the primary identity byte, which stays unconstrained here. -/
theorem detect_legacy_overrides_register (i2c : ReadFn) (spi : SpiProbes) (g : GyroDev)
    (hack : (i2c MPU_RA_WHO_AM_I 1).1 = true)
    (hlegAck : (i2c MPU_RA_WHO_AM_I_LEGACY 1).1 = true)
    (hlegSig : byteAt (i2c MPU_RA_WHO_AM_I_LEGACY 1).2 0 &&& MPU_INQUIRY_MASK
        = MPUx0x0_WHO_AM_I_CONST) :
    (mpuDetect i2c spi g).gyro.sensor = MpuSensor.MPU_3050 ∧
    (mpuDetect i2c spi g).gyro.gyroReadXRegister = MPU3050_GYRO_OUT ∧
    MPU3050_GYRO_OUT ≠ MPU_RA_GYRO_XOUT_H ∧
    (mpuDetect i2c spi g).revisionCalls = 0 ∧
    (mpuDetect i2c spi g).fatal = false := by
  refine ⟨?_, ?_, by decide, ?_, ?_⟩ <;>
    simp [mpuDetect, hack, hlegAck, hlegSig]

/-- A bus simulating an I2C MPU3050: primary identity byte 0, legacy probe
acknowledged with the legacy pattern. -/
def bus3050 : ReadFn := fun reg _len =>
  if reg = MPU_RA_WHO_AM_I then (true, [0x00])
  else if reg = MPU_RA_WHO_AM_I_LEGACY then (true, [0x68])
  else (false, [])

/-- Witness for C3: end-to-end detection of a simulated MPU3050. -/
theorem detect_legacy_overrides_register_witness :
    (bus3050 MPU_RA_WHO_AM_I 1).1 = true ∧
    (bus3050 MPU_RA_WHO_AM_I_LEGACY 1).1 = true ∧
    byteAt (bus3050 MPU_RA_WHO_AM_I_LEGACY 1).2 0 &&& MPU_INQUIRY_MASK
      = MPUx0x0_WHO_AM_I_CONST ∧
    ((mpuDetect bus3050 ⟨false, false, false, false⟩ gyroDevZero).gyro.sensor
        = MpuSensor.MPU_3050 ∧
     (mpuDetect bus3050 ⟨false, false, false, false⟩ gyroDevZero).gyro.gyroReadXRegister
        = MPU3050_GYRO_OUT ∧
     MPU3050_GYRO_OUT ≠ MPU_RA_GYRO_XOUT_H ∧
     (mpuDetect bus3050 ⟨false, false, false, false⟩ gyroDevZero).revisionCalls = 0 ∧
     (mpuDetect bus3050 ⟨false, false, false, false⟩ gyroDevZero).fatal = false) :=
  ⟨by decide, by decide, by decide,
    detect_legacy_overrides_register bus3050 ⟨false, false, false, false⟩ gyroDevZero
      (by decide) (by decide) (by decide)⟩

/-- C4: when the primary transport does not acknowledge the identity probe
and no SPI variant probe claims the device, `mpuDetect` returns the device
completely unchanged: the variant stays at its sentinel and no dispatch-table
field is installed. -/
theorem detect_unclaimed_leaves_undetected (i2c : ReadFn) (spi : SpiProbes) (g : GyroDev)
    (hack : (i2c MPU_RA_WHO_AM_I 1).1 = false)
    (h6000 : spi.mpu6000 = false) (h6500 : spi.mpu6500 = false)
    (h9250 : spi.mpu9250 = false) (h20689 : spi.icm20689 = false) :
    mpuDetect i2c spi g = ⟨g, false, 0⟩ := by
  simp [mpuDetect, detectSPISensorsAndUpdateDetectionResult, hack,
    h6000, h6500, h9250, h20689]

/-- Witness for C4: a silent bus and all SPI probes declining leave the
zeroed device in its sentinel state with null dispatch pointers. -/
theorem detect_unclaimed_leaves_undetected_witness :
    (busNoAck MPU_RA_WHO_AM_I 1).1 = false ∧
    mpuDetect busNoAck ⟨false, false, false, false⟩ gyroDevZero
      = ⟨gyroDevZero, false, 0⟩ ∧
    gyroDevZero.sensor = MpuSensor.MPU_NONE ∧
    gyroDevZero.readFn = FnPtr.null ∧ gyroDevZero.writeFn = FnPtr.null :=
  ⟨by decide,
    detect_unclaimed_leaves_undetected busNoAck ⟨false, false, false, false⟩
      gyroDevZero (by decide) rfl rfl rfl rfl,
    rfl, rfl, rfl⟩

/-- C10: when the primary transport acknowledges but the masked identity byte
matches neither the legacy pattern (via the legacy-register probe) nor the
six-axis nor the extended-family constant, the variant stays at the
undetected sentinel, yet the primary-transport read and write pointers and
the default gyro burst register are installed. -/
theorem detect_unrecognized_still_installs_table (i2c : ReadFn) (spi : SpiProbes)
    (g : GyroDev)
    (hack : (i2c MPU_RA_WHO_AM_I 1).1 = true)
    (hleg : ¬((i2c MPU_RA_WHO_AM_I_LEGACY 1).1 = true ∧
        byteAt (i2c MPU_RA_WHO_AM_I_LEGACY 1).2 0 &&& MPU_INQUIRY_MASK
          = MPUx0x0_WHO_AM_I_CONST))
    (hs1 : byteAt (i2c MPU_RA_WHO_AM_I 1).2 0 &&& MPU_INQUIRY_MASK
        ≠ MPUx0x0_WHO_AM_I_CONST)
    (hs2 : byteAt (i2c MPU_RA_WHO_AM_I 1).2 0 &&& MPU_INQUIRY_MASK
        ≠ MPU6500_WHO_AM_I_CONST)
    (hsen : g.sensor = MpuSensor.MPU_NONE) :
    (mpuDetect i2c spi g).gyro.sensor = MpuSensor.MPU_NONE ∧
    (mpuDetect i2c spi g).gyro.readFn = FnPtr.i2cPrimary ∧
    (mpuDetect i2c spi g).gyro.writeFn = FnPtr.i2cPrimary ∧
    (mpuDetect i2c spi g).gyro.gyroReadXRegister = MPU_RA_GYRO_XOUT_H ∧
    (mpuDetect i2c spi g).revisionCalls = 0 ∧
    (mpuDetect i2c spi g).fatal = false := by
  refine ⟨?_, ?_, ?_, ?_, ?_, ?_⟩ <;>
    simp [mpuDetect, hack, hleg, hs1, hs2, hsen]

/-- A bus acknowledging the identity probe with the unrecognized byte 0x10
and never acknowledging the legacy probe. -/
def busUnknownSig : ReadFn := fun reg _len =>
  if reg = MPU_RA_WHO_AM_I then (true, [0x10])
  else (false, [])

/-- Witness for C10: an acknowledged but unrecognized identity byte. -/
theorem detect_unrecognized_still_installs_table_witness :
    (busUnknownSig MPU_RA_WHO_AM_I 1).1 = true ∧
    ¬((busUnknownSig MPU_RA_WHO_AM_I_LEGACY 1).1 = true ∧
        byteAt (busUnknownSig MPU_RA_WHO_AM_I_LEGACY 1).2 0 &&& MPU_INQUIRY_MASK
          = MPUx0x0_WHO_AM_I_CONST) ∧
    byteAt (busUnknownSig MPU_RA_WHO_AM_I 1).2 0 &&& MPU_INQUIRY_MASK
      ≠ MPUx0x0_WHO_AM_I_CONST ∧
    byteAt (busUnknownSig MPU_RA_WHO_AM_I 1).2 0 &&& MPU_INQUIRY_MASK
      ≠ MPU6500_WHO_AM_I_CONST ∧
    gyroDevZero.sensor = MpuSensor.MPU_NONE ∧
    ((mpuDetect busUnknownSig ⟨false, false, false, false⟩ gyroDevZero).gyro.sensor
        = MpuSensor.MPU_NONE ∧
     (mpuDetect busUnknownSig ⟨false, false, false, false⟩ gyroDevZero).gyro.readFn
        = FnPtr.i2cPrimary ∧
     (mpuDetect busUnknownSig ⟨false, false, false, false⟩ gyroDevZero).gyro.writeFn
        = FnPtr.i2cPrimary ∧
     (mpuDetect busUnknownSig ⟨false, false, false, false⟩ gyroDevZero).gyro.gyroReadXRegister
        = MPU_RA_GYRO_XOUT_H ∧
     (mpuDetect busUnknownSig ⟨false, false, false, false⟩ gyroDevZero).revisionCalls = 0 ∧
     (mpuDetect busUnknownSig ⟨false, false, false, false⟩ gyroDevZero).fatal = false) :=
  ⟨by decide, by decide, by decide, by decide, rfl,
    detect_unrecognized_still_installs_table busUnknownSig
      ⟨false, false, false, false⟩ gyroDevZero
      (by decide) (by decide) (by decide) (by decide) rfl⟩

/-- Witness for C7 at a bus acknowledging with bytes 1 2 3 4 FF FE. -/
theorem ackedBurstRead_decodes_bigEndian_witness :
    (busAcked gyroDevZero.gyroReadXRegister 6).1 = true ∧
    (busAcked MPU_RA_ACCEL_XOUT_H 6).1 = true ∧
    (mpuGyroRead busAcked gyroDevZero =
      (true, {gyroDevZero with gyroADCRaw :=
        { x := specBE16 ((busAcked gyroDevZero.gyroReadXRegister 6).2.getD 0 0)
                 ((busAcked gyroDevZero.gyroReadXRegister 6).2.getD 1 0)
          y := specBE16 ((busAcked gyroDevZero.gyroReadXRegister 6).2.getD 2 0)
                 ((busAcked gyroDevZero.gyroReadXRegister 6).2.getD 3 0)
          z := specBE16 ((busAcked gyroDevZero.gyroReadXRegister 6).2.getD 4 0)
                 ((busAcked gyroDevZero.gyroReadXRegister 6).2.getD 5 0) }}) ∧
     mpuAccRead busAcked accDevZero =
      (true, {accDevZero with ADCRaw :=
        { x := specBE16 ((busAcked MPU_RA_ACCEL_XOUT_H 6).2.getD 0 0)
                 ((busAcked MPU_RA_ACCEL_XOUT_H 6).2.getD 1 0)
          y := specBE16 ((busAcked MPU_RA_ACCEL_XOUT_H 6).2.getD 2 0)
                 ((busAcked MPU_RA_ACCEL_XOUT_H 6).2.getD 3 0)
          z := specBE16 ((busAcked MPU_RA_ACCEL_XOUT_H 6).2.getD 4 0)
                 ((busAcked MPU_RA_ACCEL_XOUT_H 6).2.getD 5 0) }})) :=
  ⟨by decide, by decide,
    ackedBurstRead_decodes_bigEndian busAcked gyroDevZero accDevZero
      (by decide) (by decide)⟩

end AccgyroMpu
